import Mathlib

/-!
Verification development for the Boulevard new-client automation pipeline.

The Python sources (`app.py`, `fetch_from_sheets.py`) are shallowly embedded
below.  Pure data transformations are translated directly; code that talks to
the browser or to the spreadsheet API is modelled as a function over an
explicit oracle describing the outcome of each DOM query / API call.
Machine-independent simplifications are noted next to each definition.
-/

namespace Boulevard

/-! ## Basic helpers shared by several functions -/

/-- Does `hay` start with `needle`? -/
def listStartsWith (needle : List Char) (hay : List Char) : Bool :=
  match needle, hay with
  | [], _ => true
  | _ :: _, [] => false
  | n :: ns, h :: hs => n = h && listStartsWith ns hs

/-- Does `needle` occur as a contiguous block of `hay`? -/
def listInfix (needle : List Char) (hay : List Char) : Bool :=
  match hay with
  | [] => listStartsWith needle []
  | _ :: hs => listStartsWith needle hay || listInfix needle hs

/-- Python `needle in haystack` (substring test). -/
def pyIn (needle haystack : String) : Bool :=
  listInfix needle.toList haystack.toList

/-- Whitespace characters stripped by Python `str.strip()` (ASCII portion —
the scraped texts contain no other whitespace). -/
def isStripSpace (c : Char) : Bool :=
  c = ' ' || c = '\t' || c = '\n' || c = '\r' || c = '\x0b' || c = '\x0c'

/-- Python `s.strip()`. -/
def pyStrip (s : String) : String :=
  String.mk
    (((s.toList.dropWhile isStripSpace).reverse.dropWhile isStripSpace).reverse)

/-- First occurrence split: `some (before, after)` for the first occurrence
of the (nonempty) separator, `none` when it does not occur. -/
def breakOnList (sep : List Char) : List Char → Option (List Char × List Char)
  | [] => none
  | c :: cs =>
    if listStartsWith sep (c :: cs) then some ([], (c :: cs).drop sep.length)
    else
      match breakOnList sep cs with
      | some (pre, post) => some (c :: pre, post)
      | none => none

/-- Fuel-driven splitter (the fuel is an embedding artifact; `pySplitOn`
supplies enough for the whole string). -/
def pySplitAux (sep : List Char) : Nat → List Char → List (List Char)
  | 0, cs => [cs]
  | fuel + 1, cs =>
    match breakOnList sep cs with
    | none => [cs]
    | some (pre, post) => pre :: pySplitAux sep fuel post

/-- Python `s.split(sep)` for a nonempty separator. -/
def pySplitOn (s : String) (sep : String) : List String :=
  (pySplitAux sep.toList (s.toList.length + 1) s.toList).map String.mk

/-- Python `s.startswith(p)`. -/
def pyStartsWith (s p : String) : Bool :=
  listStartsWith p.toList s.toList

/-- Python `s.endswith(p)`. -/
def pyEndsWith (s p : String) : Bool :=
  listStartsWith p.toList.reverse s.toList.reverse

/-- Python `s[n:]` (drop the first `n` characters). -/
def pyDrop (s : String) (n : Nat) : String :=
  String.mk (s.toList.drop n)

/-- A nonempty all-digit character run as a number. -/
def listToNat? (cs : List Char) : Option Nat :=
  if ¬ cs.isEmpty && cs.all (fun c => '0' ≤ c && c ≤ '9') then
    some (cs.foldl (fun a c => a * 10 + (c.toNat - 48)) 0)
  else none

/-- Python `int(s)` on a string: optional sign and digits (surrounding
whitespace, which the sheet cells never carry, is not modelled). -/
def strToInt? (s : String) : Option Int :=
  match s.toList with
  | '-' :: rest => (listToNat? rest).map (fun n => -(n : Int))
  | '+' :: rest => (listToNat? rest).map (fun n => (n : Int))
  | cs => (listToNat? cs).map (fun n => (n : Int))

/-- Python `int(s)` truncated to `String → Option Nat` for the date
parsers (strptime fields are unsigned). -/
def strToNat? (s : String) : Option Nat :=
  listToNat? s.toList

/-- ASCII lower/upper case pairs; models Python `str.lower` / `str.upper` /
`str.title` case mapping restricted to ASCII (all data handled by the scripts
is ASCII). -/
def asciiCasePairs : List (Char × Char) :=
  [('a','A'), ('b','B'), ('c','C'), ('d','D'), ('e','E'), ('f','F'), ('g','G'),
   ('h','H'), ('i','I'), ('j','J'), ('k','K'), ('l','L'), ('m','M'), ('n','N'),
   ('o','O'), ('p','P'), ('q','Q'), ('r','R'), ('s','S'), ('t','T'), ('u','U'),
   ('v','V'), ('w','W'), ('x','X'), ('y','Y'), ('z','Z')]

/-- Lowercase one character (ASCII). -/
def pyLowerChar (c : Char) : Char :=
  match asciiCasePairs.find? (fun p => p.2 = c) with
  | some p => p.1
  | none => c

/-- Uppercase one character (ASCII). -/
def pyUpperChar (c : Char) : Char :=
  match asciiCasePairs.find? (fun p => p.1 = c) with
  | some p => p.2
  | none => c

/-- Python `str.lower`. -/
def pyLower (s : String) : String :=
  String.mk (s.toList.map pyLowerChar)

/-- A character is an ASCII letter (regex class `[A-Za-z]`). -/
def isLetterC (c : Char) : Bool :=
  asciiCasePairs.any (fun p => p.1 = c || p.2 = c)

/-- A character is an ASCII digit (regex class `\d`, restricted to ASCII). -/
def isDigitC (c : Char) : Bool :=
  '0' ≤ c && c ≤ '9'

/-! ## JSON-like values

Raw calendar events arrive as parsed JSON.  `Value` models the Python objects
the scripts manipulate; floats are not needed by any verified claim, so JSON
numbers are carried as integers (they only pass through unchanged). -/

inductive Value where
  | null
  | bool (b : Bool)
  | num (n : Int)
  | str (s : String)
  | list (xs : List Value)
  | dict (d : List (String × Value))

/-- Python truthiness of a `Value` (`if x:`). -/
def truthy : Value → Bool
  | .null => false
  | .bool b => b
  | .num n => n ≠ 0
  | .str s => s ≠ ""
  | .list xs => ¬ xs.isEmpty
  | .dict d => ¬ d.isEmpty

/-- Python `d.get(k, default)` on a dict. -/
def dictGet (d : List (String × Value)) (k : String) (dflt : Value) : Value :=
  match d.find? (fun p => p.1 == k) with
  | some p => p.2
  | none => dflt

/-- `Value.dict` test (Python `isinstance(x, dict)`). -/
def isDictV : Value → Bool
  | .dict _ => true
  | _ => false

/-! ## `filter_new_clients_from_raw` (app.py lines 306-397) -/

/-- Per-event new-client flag exactly as computed by the loop body
(app.py lines 350-363):  the direct `is_new_client` field; when that is
falsy and the `client` value is a dict, the nested `client.is_new_client`
field; final decision is Python truthiness of the resulting value. -/
def event_is_new_client (event : List (String × Value)) : Bool :=
  let direct := dictGet event "is_new_client" (Value.bool false)
  let final :=
    if ¬ truthy direct then
      match dictGet event "client" (Value.dict []) with
      | .dict client_data => dictGet client_data "is_new_client" (Value.bool false)
      | _ => direct
    else direct
  truthy final

/-- The event-collection loop (app.py lines 350-364): events are appended to
`new_client_events` in input order.  A non-dict event raises `AttributeError`
at `event.get`, which the enclosing handler turns into a `[]` result; that
path is modelled by `none`. -/
def filter_loop (acc : List Value) : List Value → Option (List Value)
  | [] => some acc
  | ev :: rest =>
    match ev with
    | .dict d =>
      filter_loop (if event_is_new_client d then acc ++ [ev] else acc) rest
    | _ => none

/-- Extraction of the event list from the raw response
(app.py lines 324-331): a bare list is used as is; a dict is probed for
`events` and then `data`; anything else leaves the initial `[]`. -/
def eventsOf (raw_data : Value) : Value :=
  match raw_data with
  | .list _ => raw_data
  | .dict d => dictGet d "events" (dictGet d "data" (Value.list []))
  | _ => .list []

/-- `filter_new_clients_from_raw` (app.py lines 306-397).  A falsy events
value returns `[]` (line 333); an events value that is not a list of dicts
raises inside the `try`, and the handler returns `[]` (lines 395-397). -/
def filter_new_clients_from_raw (raw_data : Value) : List Value :=
  let events := eventsOf raw_data
  if ¬ truthy events then []
  else
    match events with
    | .list evs =>
      match filter_loop [] evs with
      | some res => res
      | none => []
    | _ => []

/-- Specification-side predicate, worded from the spec: direct boolean field
OR nested client-object boolean field, first truthy wins. -/
def new_client_spec (event : List (String × Value)) : Bool :=
  truthy (dictGet event "is_new_client" (Value.bool false)) ||
    (match dictGet event "client" (Value.dict []) with
     | .dict c => truthy (dictGet c "is_new_client" (Value.bool false))
     | _ => false)

/-! ## The date-fragment regex `([A-Za-z]+)\s+(\d+)`

`re.search` looks for the leftmost match of "letters, whitespace, digits".
Because the three character classes are disjoint, backtracking inside a
letter run can never succeed (the character after a shortened run is still a
letter), so the leftmost match is found at the first maximal letter run that
is followed by whitespace and then a digit; group 1 is that whole run and
group 2 the digit run after the whitespace. -/

/-- Whitespace as matched by `\s` (ASCII portion, which is all the scraped
text contains). -/
def isSpaceC (c : Char) : Bool :=
  c = ' ' || c = '\t' || c = '\n' || c = '\r' || c = '\x0b' || c = '\x0c'

/-- Fuel-driven scanner for the leftmost `([A-Za-z]+)\s+(\d+)` match; the
fuel is an embedding artifact, `findMonthDay` supplies `cs.length` which is
always sufficient. -/
def findMonthDayAux : Nat → List Char → Option (List Char × List Char)
  | 0, _ => none
  | _ + 1, [] => none
  | fuel + 1, c :: rest =>
    if isLetterC c then
      let letters := List.takeWhile isLetterC (c :: rest)
      let afterLetters := List.dropWhile isLetterC (c :: rest)
      let spaces := List.takeWhile isSpaceC afterLetters
      let afterSpaces := List.dropWhile isSpaceC afterLetters
      let digits := List.takeWhile isDigitC afterSpaces
      if 0 < spaces.length && 0 < digits.length then some (letters, digits)
      else findMonthDayAux fuel afterLetters
    else findMonthDayAux fuel rest

/-- Leftmost match of `([A-Za-z]+)\s+(\d+)`: `some (month token, day digits)`
or `none` when the text has no such fragment. -/
def findMonthDay (cs : List Char) : Option (List Char × List Char) :=
  findMonthDayAux cs.length cs

/-- `day_str.zfill(2)` for a nonempty digit string. -/
def zfill2 (s : String) : String :=
  if s.length < 2 then "0" ++ s else s

/-- Month map used for the next-appointment date (app.py lines 1432-1439):
three-letter abbreviations plus full month names (no full "May" entry — the
abbreviation already covers it). -/
def month_map_full : List (String × String) :=
  [("Jan", "01"), ("Feb", "02"), ("Mar", "03"), ("Apr", "04"),
   ("May", "05"), ("Jun", "06"), ("Jul", "07"), ("Aug", "08"),
   ("Sep", "09"), ("Oct", "10"), ("Nov", "11"), ("Dec", "12"),
   ("January", "01"), ("February", "02"), ("March", "03"), ("April", "04"),
   ("June", "06"), ("July", "07"), ("August", "08"), ("September", "09"),
   ("October", "10"), ("November", "11"), ("December", "12")]

/-- Month map used for the booked date (app.py lines 1456-1460):
three-letter abbreviations only. -/
def month_map_abbrev : List (String × String) :=
  [("Jan", "01"), ("Feb", "02"), ("Mar", "03"), ("Apr", "04"),
   ("May", "05"), ("Jun", "06"), ("Jul", "07"), ("Aug", "08"),
   ("Sep", "09"), ("Oct", "10"), ("Nov", "11"), ("Dec", "12")]

/-- Python `month_map.get(month_str, '01')`. -/
def monthMapGet (m : List (String × String)) (month_str : String) : String :=
  match m.lookup month_str with
  | some v => v
  | none => "01"

/-! ## Calendar date parsing and formatting

Models of the `datetime.strptime` / `strftime` pairs the scripts use.
`strptime` is modelled on its canonical zero-padded inputs (the only inputs
the program feeds it are vendor-formatted dates); a string not in the
expected shape parses to `none`, which corresponds to `ValueError`. -/

def isLeapYear (y : Nat) : Bool :=
  (y % 4 = 0 && y % 100 ≠ 0) || y % 400 = 0

def daysInMonth (y : Nat) (m : Nat) : Nat :=
  if m = 2 then (if isLeapYear y then 29 else 28)
  else if m = 4 || m = 6 || m = 9 || m = 11 then 30
  else 31

/-- Two-digit zero-padded rendering (strftime `%m` / `%d`). -/
def pad2 (n : Nat) : String :=
  if n < 10 then "0" ++ toString n else toString n

/-- `datetime.strptime(s, '%Y-%m-%d')`, returning `(year, month, day)`. -/
def parse_Ymd (s : String) : Option (Nat × Nat × Nat) :=
  match pySplitOn s "-" with
  | [ys, ms, ds] =>
    match strToNat? ys, strToNat? ms, strToNat? ds with
    | some y, some m, some d =>
      if ys.length = 4 && ms.length ≤ 2 && ds.length ≤ 2 &&
          1 ≤ m && m ≤ 12 && 1 ≤ d && d ≤ daysInMonth y m
      then some (y, m, d) else none
    | _, _, _ => none
  | _ => none

/-- `datetime.strptime(s, '%m/%d/%Y')`, returning `(month, day, year)`. -/
def parse_mdY (s : String) : Option (Nat × Nat × Nat) :=
  match pySplitOn s "/" with
  | [ms, ds, ys] =>
    match strToNat? ms, strToNat? ds, strToNat? ys with
    | some m, some d, some y =>
      if ms.length ≤ 2 && ds.length ≤ 2 && ys.length = 4 &&
          1 ≤ m && m ≤ 12 && 1 ≤ d && d ≤ daysInMonth y m
      then some (m, d, y) else none
    | _, _, _ => none
  | _ => none

/-- strftime `%m/%d/%Y`. -/
def fmt_mdY (m d y : Nat) : String :=
  pad2 m ++ "/" ++ pad2 d ++ "/" ++ toString y

/-- strftime `%Y-%m-%d`. -/
def fmt_Ymd (y m d : Nat) : String :=
  toString y ++ "-" ++ pad2 m ++ "-" ++ pad2 d

/-- Nat value of a digit run. -/
def natOfDigits (cs : List Char) : Nat :=
  cs.foldl (fun a c => a * 10 + (c.toNat - 48)) 0

/-- Full month names for `strptime('%B ...')`. -/
def monthNamesFull : List (String × Nat) :=
  [("January", 1), ("February", 2), ("March", 3), ("April", 4),
   ("May", 5), ("June", 6), ("July", 7), ("August", 8),
   ("September", 9), ("October", 10), ("November", 11), ("December", 12)]

/-- `datetime.strptime(s, "%B %d, %Y")` (gallery date, e.g.
"September 24, 2025"), returning `(month, day, year)`. -/
def parse_full_month_date (s : String) : Option (Nat × Nat × Nat) :=
  let cs := s.toList
  let monthRun := cs.takeWhile isLetterC
  let r1 := cs.dropWhile isLetterC
  match monthNamesFull.lookup (String.mk monthRun) with
  | none => none
  | some m =>
    match r1 with
    | ' ' :: r2 =>
      let dayRun := r2.takeWhile isDigitC
      let r3 := r2.dropWhile isDigitC
      if dayRun.length = 0 || 2 < dayRun.length then none
      else
        match r3 with
        | ',' :: ' ' :: r4 =>
          let yearRun := r4.takeWhile isDigitC
          let r5 := r4.dropWhile isDigitC
          if yearRun.length = 4 && r5 = [] && 1 ≤ natOfDigits dayRun &&
              natOfDigits dayRun ≤ daysInMonth (natOfDigits yearRun) m
          then some (m, natOfDigits dayRun, natOfDigits yearRun) else none
        | _ => none
    | _ => none

/-! ## Appointment-date formatting inside `extract_new_client_fields`
(app.py lines 1220-1239) -/

/-- The `start` ISO string → `MM/DD/YYYY` conversion, including the retry
branch of the source: the part before `T` is parsed as `%Y-%m-%d`; on failure
the code retries (only when the string carries a timezone marker) and finally
falls back to the raw string. -/
def appointment_date_of_start (start_date_str : String) : String :=
  if start_date_str = "" then "N/A"
  else
    let date_part :=
      if pyIn "T" start_date_str then (pySplitOn start_date_str "T").headD ""
      else start_date_str
    match parse_Ymd date_part with
    | some (y, m, d) => fmt_mdY m d y
    | none =>
      if pyIn "+" start_date_str || pyEndsWith start_date_str "Z" then
        match parse_Ymd ((pySplitOn start_date_str "T").headD "") with
        | some (y, m, d) => fmt_mdY m d y
        | none => start_date_str
      else start_date_str

/-! ## `hasPhotos` derivation (app.py lines 1303-1312) -/

/-- The derived `hasPhotos` flag: string equality of the two dates, forced to
`False` when either side is the `'N/A'` sentinel. -/
def compute_hasPhotos (appointment_date gallery_date : String) : Bool :=
  if appointment_date ≠ "N/A" && gallery_date ≠ "N/A" then
    appointment_date == gallery_date
  else false

/-! ## Records

`ExtractedRecord` is the consumer-side view of the merged dict that
`extract_new_client_fields` builds: `clean_data` reads each key with
`record.get(key, default)`, so a field is an `Option` whose `none` means the
key is absent.  `price` passes through `clean_data` unchanged; the float is
carried as an `Int` stand-in. -/

structure SchedAppt where
  service : Option String := none
  date_time : Option String := none

structure PtIntake where
  occupation : Option String := none
  referral_source : Option String := none
  referral_name : Option String := none
  interests : Option (List String) := none

structure ExtractedRecord where
  appointment_date : Option String := none
  client_name : Option String := none
  phone_number : Option String := none
  service_name : Option String := none
  price : Option Int := none
  visit_count : Option Int := none
  membership_start_date : Option String := none
  booked_date : Option String := none
  booked_by : Option String := none
  provider_name : Option String := none
  hasPhotos : Option Bool := none
  hasCharting : Option Bool := none
  hasCompletedPTIntakeForm : Option Bool := none
  scheduled_appointments : Option (List SchedAppt) := none
  pt_intake_form : Option PtIntake := none

/-- Final fixed-schema row built by `clean_data` (app.py lines 1472-1505),
fields in the dict's insertion order. -/
structure CleanedRecord where
  number : Int
  new_client_daily_count : String
  appointment_date : String
  next_appointment_date : String
  client_name : String
  phone_number : String
  service_name : String
  price : Int
  membership : String
  visit : Int
  booked_date : String
  front_desk : String
  provider_name : String
  date_treatment_plan_set : String
  photos : String
  charting : String
  occupation : String
  referral_source : String
  referral_source_2 : String
  referral_name : String
  form_compliance : String
  interest_1 : String
  interest_2 : String
  interest_3 : String
  interest_4 : String
  interest_5 : String
  interest_6 : String
  interest_7 : String
  interest_8 : String
  interest_9 : String
  interest_10 : String

/-! ## `clean_data` (app.py lines 1398-1510) -/

/-- Next-appointment date (app.py lines 1418-1443): regex-extract month name
and day from the first scheduled appointment's `date_time` text, map the
month token (unknown tokens default to "01"), and attach the current year. -/
def next_appointment_date_of (scheduled_appointments : List SchedAppt)
    (current_year : Nat) : String :=
  match scheduled_appointments with
  | [] => "N/A"
  | appt :: _ =>
    let date_time_str := appt.date_time.getD ""
    if date_time_str ≠ "" && date_time_str ≠ "N/A" then
      match findMonthDay date_time_str.toList with
      | some (month_str, day_str) =>
        monthMapGet month_map_full (String.mk month_str) ++ "/" ++
          zfill2 (String.mk day_str) ++ "/" ++ toString current_year
      | none => "N/A"
    else "N/A"

/-- Booked-date reformat (app.py lines 1445-1466): same regex, abbreviation
map only, current year attached; a string with no match is kept verbatim and
an empty/sentinel input yields the empty string. -/
def booked_date_formatted_of (booked_date : String) (current_year : Nat) :
    String :=
  if booked_date ≠ "" && booked_date ≠ "N/A" then
    match findMonthDay booked_date.toList with
    | some (month_str, day_str) =>
      monthMapGet month_map_abbrev (String.mk month_str) ++ "/" ++
        zfill2 (String.mk day_str) ++ "/" ++ toString current_year
    | none => booked_date
  else ""

/-- One iteration of the `clean_data` loop body (app.py lines 1416-1507). -/
def clean_record (current_year : Nat) (idx : Int) (record : ExtractedRecord) :
    CleanedRecord :=
  let pt := record.pt_intake_form
  let interests := match pt with
    | some f => f.interests.getD []
    | none => []
  { number := idx
  , new_client_daily_count := ""
  , appointment_date := record.appointment_date.getD "N/A"
  , next_appointment_date :=
      next_appointment_date_of (record.scheduled_appointments.getD [])
        current_year
  , client_name := record.client_name.getD "N/A"
  , phone_number := record.phone_number.getD "N/A"
  , service_name := record.service_name.getD "N/A"
  , price := record.price.getD 0
  , membership := record.membership_start_date.getD "N/A"
  , visit := record.visit_count.getD 1
  , booked_date := booked_date_formatted_of (record.booked_date.getD "") current_year
  , front_desk := record.booked_by.getD "N/A"
  , provider_name := record.provider_name.getD "N/A"
  , date_treatment_plan_set := ""
  , photos := if record.hasPhotos.getD false then "Yes" else "No"
  , charting := if record.hasCharting.getD false then "Yes" else "No"
  , occupation := match pt with
      | some f => f.occupation.getD ""
      | none => ""
  , referral_source := match pt with
      | some f => f.referral_source.getD "N/A"
      | none => "N/A"
  , referral_source_2 := "N/A"
  , referral_name := match pt with
      | some f => f.referral_name.getD "N/A"
      | none => "N/A"
  , form_compliance :=
      if record.hasCompletedPTIntakeForm.getD false then "Completed"
      else "Not Completed"
  , interest_1 := interests.getD 0 ""
  , interest_2 := interests.getD 1 ""
  , interest_3 := interests.getD 2 ""
  , interest_4 := interests.getD 3 ""
  , interest_5 := interests.getD 4 ""
  , interest_6 := interests.getD 5 ""
  , interest_7 := interests.getD 6 ""
  , interest_8 := interests.getD 7 ""
  , interest_9 := interests.getD 8 ""
  , interest_10 := interests.getD 9 ""
  }

/-- The `enumerate(extracted_data, start=start_number)` loop. -/
def clean_data_loop (current_year : Nat) : Int → List ExtractedRecord →
    List CleanedRecord
  | _, [] => []
  | idx, record :: rest =>
    clean_record current_year idx record ::
      clean_data_loop current_year (idx + 1) rest

/-- `clean_data(extracted_data, start_number)`; `current_year` is the value
of `datetime.now().year` at run time. -/
def clean_data (current_year : Nat) (extracted_data : List ExtractedRecord)
    (start_number : Int) : List CleanedRecord :=
  clean_data_loop current_year start_number extracted_data

/-! ## Header naming transforms

Append side (app.py line 1592): `key.replace('_', ' ').title()`.
Fetch side (fetch_from_sheets.py line 117): `header.lower().replace(' ', '_')`.
`str.title` uppercases a cased character that follows an uncased one and
lowercases cased characters that follow cased ones; for the ASCII field names
at hand "cased" means an ASCII letter. -/

/-- `str.title`, tracking whether the previous character was cased. -/
def pyTitleAux : Bool → List Char → List Char
  | _, [] => []
  | prevCased, c :: cs =>
    if isLetterC c then
      (if prevCased then pyLowerChar c else pyUpperChar c) ::
        pyTitleAux true cs
    else c :: pyTitleAux false cs

/-- Append-side header name: `key.replace('_', ' ').title()`. -/
def header_of_key (key : String) : String :=
  String.mk (pyTitleAux false
    (key.toList.map (fun c => if c = '_' then ' ' else c)))

/-- Fetch-side key name: `header.lower().replace(' ', '_')`. -/
def key_of_header (header : String) : String :=
  String.mk ((header.toList.map pyLowerChar).map
    (fun c => if c = ' ' then '_' else c))

/-! ## Spreadsheet append (app.py lines 1589-1630)

The worksheet is modelled as its `get_all_values()` matrix, a list of rows of
cell strings.  `insert_row(headers, index=1)` prepends a row,
`update('A1', [headers])` replaces the first row, and `append_rows` appends
at the bottom (gspread semantics for a dense table).  Cell serialization of
the non-string record values is modelled with `toString`. -/

/-- The cleaned-record dict keys, in insertion order (app.py lines
1473-1504). -/
def cleaned_keys : List String :=
  ["number", "new_client_daily_count", "appointment_date",
   "next_appointment_date", "client_name", "phone_number", "service_name",
   "price", "membership", "visit", "booked_date", "front_desk",
   "provider_name", "date_treatment_plan_set", "photos", "charting",
   "occupation", "referral_source", "referral_source_2", "referral_name",
   "form_compliance", "interest_1", "interest_2", "interest_3", "interest_4",
   "interest_5", "interest_6", "interest_7", "interest_8", "interest_9",
   "interest_10"]

/-- Headers computed from the first record's keys (app.py line 1592); every
`CleanedRecord` has the same keys, so this is a constant. -/
def computed_headers : List String :=
  cleaned_keys.map header_of_key

/-- The row serialization `[record.get(key, '') for key in keys]`
(app.py line 1613). -/
def row_of_record (r : CleanedRecord) : List String :=
  [toString r.number, r.new_client_daily_count, r.appointment_date,
   r.next_appointment_date, r.client_name, r.phone_number, r.service_name,
   toString r.price, r.membership, toString r.visit, r.booked_date,
   r.front_desk, r.provider_name, r.date_treatment_plan_set, r.photos,
   r.charting, r.occupation, r.referral_source, r.referral_source_2,
   r.referral_name, r.form_compliance, r.interest_1, r.interest_2,
   r.interest_3, r.interest_4, r.interest_5, r.interest_6, r.interest_7,
   r.interest_8, r.interest_9, r.interest_10]

/-- Worksheet mutation performed by `append_to_google_sheets`
(app.py lines 1589-1630) once the target worksheet has been opened:
header insertion when the sheet has no first row, header overwrite on
mismatch, then the batch append.  With no cleaned data the function logs and
returns without touching the sheet. -/
def append_to_google_sheets (worksheet : List (List String))
    (cleaned_data : List CleanedRecord) : List (List String) :=
  match cleaned_data with
  | [] => worksheet
  | _ :: _ =>
    let headers := computed_headers
    let ws1 :=
      if worksheet.isEmpty || (worksheet.headD []).isEmpty then
        headers :: worksheet
      else if worksheet.headD [] ≠ headers then
        headers :: worksheet.tail
      else worksheet
    ws1 ++ cleaned_data.map row_of_record

/-! ## Environment configuration and the run skeleton -/

/-- The four environment values read through `os.getenv`; `none` models an
unset variable.  Python truthiness also rejects the empty string. -/
structure Env where
  blvd_email : Option String := none
  blvd_password : Option String := none
  google_credentials_b64 : Option String := none
  spreadsheet_id : Option String := none

/-- `bool(os.getenv(...))`: set and nonempty. -/
def env_set (v : Option String) : Bool :=
  match v with
  | some s => s ≠ ""
  | none => false

/-- Outcome of the Google-Sheets last-row lookup, seen from
`get_last_row_number_from_sheets`: either some step raised / the monthly
worksheet is absent (`failure`, the `except` paths of app.py lines 1368-1371
and 1393-1395), or `col_values(1)` returned the first column. -/
inductive SheetsLookup where
  | failure
  | column (all_values : List String)

/-- `get_last_row_number_from_sheets` (app.py lines 1332-1395).
Python `int(last_value)` is modelled by `strToInt?` (sign plus digits). -/
def get_last_row_number_from_sheets (env : Env) (lk : SheetsLookup) : Int :=
  if ¬ (env_set env.google_credentials_b64 && env_set env.spreadsheet_id) then 0
  else
    match lk with
    | .failure => 0
    | .column all_values =>
      if all_values.length ≤ 1 then 0
      else
        match strToInt? (all_values.getLastD "") with
        | some last_number => last_number
        | none => 0

/-- `start_number = get_last_row_number_from_sheets() + 1`
(app.py lines 1713-1714). -/
def run_start_number (env : Env) (lk : SheetsLookup) : Int :=
  get_last_row_number_from_sheets env lk + 1

/-- The `number` values already recorded in the sheet: the first-column cells
below the header that parse as integers (spec-side reading of "`number`
values already present in the sheet"). -/
def sheetNumbers (all_values : List String) : List Int :=
  (all_values.drop 1).filterMap strToInt?

/-- Success flag of `append_to_google_sheets` (app.py lines 1526-1634):
`false` on unset credentials, on any failing API step (`api_ok` oracle), and
on empty data; `true` otherwise. -/
def append_to_google_sheets_result (env : Env) (api_ok : Bool)
    (cleaned_data : List CleanedRecord) : Bool :=
  if ¬ (env_set env.google_credentials_b64 && env_set env.spreadsheet_id) then
    false
  else if ¬ api_ok then false
  else ¬ cleaned_data.isEmpty

/-- The pipeline stages of `main` (app.py lines 1637-1762), in execution
order.  `saveJson` is the write of `new_client_events_extracted.json`. -/
inductive Stage where
  | login
  | fetchEvents
  | filterEvents
  | extractFields
  | lastRowLookup
  | cleanStage
  | saveJson
  | sheetsAppend
deriving DecidableEq

/-- Stage trace of one run of `main` (app.py lines 1637-1762): the guard on
`EMAIL` / `PASSWORD` (lines 1641-1644), then login, fetch, filter, extract,
the last-row lookup, clean, the JSON dump and the sheets append, each stage
guarded exactly as in the source.  `login_ok` is the result of
`perform_login`, `events_data` the value returned by `fetch_calendar_events`,
and `extracted_data` the list returned by `extract_new_client_fields`. -/
def main_stages (env : Env) (login_ok : Bool) (events_data : Option Value)
    (extracted_data : List ExtractedRecord) : List Stage :=
  if ¬ (env_set env.blvd_email && env_set env.blvd_password) then []
  else
    Stage.login ::
      (if ¬ login_ok then []
       else
         Stage.fetchEvents ::
           (match events_data with
            | none => []
            | some raw =>
              if ¬ truthy raw then []
              else
                Stage.filterEvents ::
                  (if (filter_new_clients_from_raw raw).isEmpty then []
                   else
                     Stage.extractFields ::
                       (if extracted_data.isEmpty then []
                        else
                          [Stage.lastRowLookup, Stage.cleanStage,
                           Stage.saveJson, Stage.sheetsAppend]))))

/-! ## Enrichment oracles

The two scraping functions are embedded as functions over oracle structures
that record, for each DOM query the source performs, whether the element was
found and what its text/attribute was.  `Option (Option String)` encodes
"element present?" (outer) and "text content, which Playwright may report as
null" (inner).  Each `try/except` of the source catches locally; the model's
totality reflects that no exception escapes the call. -/

/-- Text of one element located inside a row/section:
element absent → `"N/A"`; `text_content()` returned null or the element's
text is the empty string → `"N/A"`; otherwise the stripped text
(`text.strip() if text else 'N/A'`). -/
def cell_text (t : Option (Option String)) : String :=
  match t with
  | none => "N/A"
  | some none => "N/A"
  | some (some s) => if s ≠ "" then pyStrip s else "N/A"

/-- One `tr[ng-repeat*="appointment"]` row of the Scheduled Appointments
table (app.py lines 1020-1045). -/
structure ApptRowLookup where
  service : Option (Option String) := none
  date_time : Option (Option String) := none

/-- A scheduled appointment as emitted by `getMembershipInfo`. -/
structure SchedApptOut where
  service : String
  date_time : String
deriving DecidableEq

/-- DOM oracle for the client page visited by `getMembershipInfo`
(app.py lines 976-1175), in query order. -/
structure MembershipPage where
  scheduled_heading : Bool := false
  appointment_rows : List ApptRowLookup := []
  memberships_tab : Bool := false
  overview_card : Bool := false
  status_label : Bool := false
  status_parent : Bool := false
  status_value : Option (Option String) := none
  start_date_label : Bool := false
  start_date_parent : Bool := false
  start_date_value : Option (Option String) := none
  price_label : Bool := false
  price_parent : Bool := false
  price_value : Option (Option String) := none
  gallery_tab : Bool := false
  gallery_heading : Bool := false
  gallery_date_span : Option (Option String) := none

/-- Result of `getMembershipInfo`.  In the source `scheduled_appointments`
and `gallery_first_date` are set on every path of their `try` blocks, and
`status`/`start_date`/`price` are initialized to the `'N/A'` sentinel. -/
structure MembershipInfo where
  status : String
  start_date : String
  price : String
  scheduled_appointments : List SchedApptOut
  gallery_first_date : String
deriving DecidableEq

/-- Gallery-date field (app.py lines 1124-1168): tab, heading and span must
be present; a null/empty text yields the sentinel; a parseable text is
reformatted `%m/%d/%Y`; an unparseable text is kept (stripped) verbatim
(line 1154). -/
def gallery_first_date_of (pg : MembershipPage) : String :=
  if pg.gallery_tab then
    if pg.gallery_heading then
      match pg.gallery_date_span with
      | some (some raw) =>
        if raw ≠ "" then
          let date_text := pyStrip raw
          match parse_full_month_date date_text with
          | some (m, d, y) => fmt_mdY m d y
          | none => date_text
        else "N/A"
      | some none => "N/A"
      | none => "N/A"
    else "N/A"
  else "N/A"

/-- `getMembershipInfo` (app.py lines 976-1175). -/
def getMembershipInfo (pg : MembershipPage) : MembershipInfo :=
  let scheduled_appointments :=
    if pg.scheduled_heading then
      pg.appointment_rows.map (fun row =>
        { service := cell_text row.service
          date_time := cell_text row.date_time : SchedApptOut })
    else []
  let status :=
    if pg.memberships_tab && pg.overview_card && pg.status_label &&
        pg.status_parent then
      cell_text pg.status_value
    else "N/A"
  let start_date :=
    if pg.memberships_tab && pg.overview_card && pg.start_date_label &&
        pg.start_date_parent then
      cell_text pg.start_date_value
    else "N/A"
  let price :=
    if pg.memberships_tab && pg.overview_card && pg.price_label &&
        pg.price_parent then
      cell_text pg.price_value
    else "N/A"
  { status := status
  , start_date := start_date
  , price := price
  , scheduled_appointments := scheduled_appointments
  , gallery_first_date := gallery_first_date_of pg }

/-! ### `getAppointmentDetails` (app.py lines 400-973) -/

/-- Phone-number lookup chain (app.py lines 488-518): smartphone icon,
enclosing `div.tw-flex`, then the phone span. -/
structure PhoneLookup where
  svg_present : Bool := false
  parent_present : Bool := false
  span_text : Option String := none

/-- Phone extraction: any absent link yields `'N/A'`; a found span's
`inner_text` is stripped. -/
def phone_number_of (ph : PhoneLookup) : String :=
  if ph.svg_present then
    if ph.parent_present then
      match ph.span_text with
      | some t => pyStrip t
      | none => "N/A"
    else "N/A"
  else "N/A"

/-- Provider-name lookup chain (app.py lines 588-624): services section,
first row, employee cell, span. -/
structure ServicesLookup where
  section_present : Bool := false
  first_row_present : Bool := false
  employee_cell_present : Bool := false
  employee_span : Option String := none

def provider_name_of (sv : ServicesLookup) : String :=
  if sv.section_present then
    if sv.first_row_present then
      if sv.employee_cell_present then
        match sv.employee_span with
        | some t => pyStrip t
        | none => "N/A"
      else "N/A"
    else "N/A"
  else "N/A"

/-- Charts/Forms section lookup (app.py lines 629-673 and 678-718):
heading, parent box, grandparent box, then the `form-list-item` texts
(`text_content()` may be null). -/
structure SectionLookup where
  heading : Bool := false
  parent : Bool := false
  grandparent : Bool := false
  items : List (Option String) := []

/-- Does some list item's text contain every needle? (`"Completed" in text`,
resp. both `"New PT Intake Form"` and `"Completed"`). -/
def section_has_item (sec : SectionLookup) (needles : List String) : Bool :=
  if ¬ sec.heading then false
  else if ¬ sec.parent then false
  else if ¬ sec.grandparent then false
  else
    sec.items.any (fun t =>
      match t with
      | some s => needles.all (fun n => pyIn n s)
      | none => false)

/-- A label-anchored input field of the PT intake form (app.py lines
751-912): label present, its `for` attribute (possibly null/empty), the
target input/textarea, and its value. -/
structure LabeledInput where
  label_present : Bool := false
  label_for : Option String := none
  input_present : Bool := false
  value : Option String := none

/-- Extraction of a label-anchored value: every absent link and every
falsy value yields `'N/A'`. -/
def labeled_value_of (f : LabeledInput) : String :=
  if f.label_present then
    match f.label_for with
    | some lf =>
      if lf ≠ "" then
        if f.input_present then
          match f.value with
          | some v => if v ≠ "" then v else "N/A"
          | none => "N/A"
        else "N/A"
      else "N/A"
    | none => "N/A"
  else "N/A"

/-- Birthday input (app.py lines 738-748): located by placeholder, value
attribute possibly null. -/
structure BirthdayInput where
  input_present : Bool := false
  value : Option String := none

def birthday_of (b : BirthdayInput) : String :=
  if b.input_present then
    match b.value with
    | some v => if v ≠ "" then v else "N/A"
    | none => "N/A"
  else "N/A"

/-- Best-way-to-contact radio lookup (app.py lines 835-863).  A null
`text_content` raises inside the `try` (`'Phone' in None`), which the handler
turns into `'N/A'`. -/
structure ContactLookup where
  label_present : Bool := false
  checked_radio : Bool := false
  parent_label : Bool := false
  text : Option String := none

def best_contact_method_of (cl : ContactLookup) : String :=
  if ¬ cl.label_present then "N/A"
  else if ¬ cl.checked_radio then "N/A"
  else if ¬ cl.parent_label then "N/A"
  else
    match cl.text with
    | none => "N/A"
    | some t =>
      if pyIn "Phone" t then "Phone"
      else if pyIn "Text" t then "Text"
      else if pyIn "Email" t then "Email"
      else "N/A"

/-- Referral-choice radio lookup (app.py lines 866-891). -/
structure ReferralLookup where
  label_present : Bool := false
  container : Bool := false
  checked : Bool := false
  parent_label : Bool := false
  text : Option String := none

def referral_source_of (rl : ReferralLookup) : String :=
  if ¬ rl.label_present then "N/A"
  else if ¬ rl.container then "N/A"
  else if ¬ rl.checked then "N/A"
  else if ¬ rl.parent_label then "N/A"
  else
    match rl.text with
    | none => "N/A"
    | some t => if pyStrip t ≠ "" then pyStrip t else "N/A"

/-- One checked interest checkbox (app.py lines 925-933). -/
structure CheckboxLookup where
  parent_label : Bool := false
  text : Option String := none

/-- The interest-collection loop: a checkbox whose label has a null
`text_content` raises (`None.strip()`), and the handler resets the whole
list to `[]`; `none` models that exception. -/
def collect_interests : List CheckboxLookup → Option (List String)
  | [] => some []
  | cb :: rest =>
    if cb.parent_label then
      match cb.text with
      | none => none
      | some t =>
        (collect_interests rest).map (fun tail =>
          if pyStrip t ≠ "" then pyStrip t :: tail else tail)
    else collect_interests rest

/-- All-interests lookup (app.py lines 915-943). -/
structure InterestsLookup where
  label_present : Bool := false
  container : Bool := false
  checkboxes : List CheckboxLookup := []

def interests_of (il : InterestsLookup) : List String :=
  if ¬ il.label_present then []
  else if ¬ il.container then []
  else (collect_interests il.checkboxes).getD []

/-- Oracle for the opened New PT Intake Form modal. -/
structure PtIntakeLookup where
  birthday : BirthdayInput := {}
  home_address : LabeledInput := {}
  cell_phone : LabeledInput := {}
  phone_carrier : LabeledInput := {}
  occupation : LabeledInput := {}
  contact : ContactLookup := {}
  referral : ReferralLookup := {}
  referral_name : LabeledInput := {}
  interests : InterestsLookup := {}

/-- The sub-fields scraped from the PT intake form modal
(app.py lines 735-943). -/
structure PtIntakeDetails where
  birthday : String
  home_address : String
  cell_phone : String
  phone_carrier : String
  occupation : String
  best_contact_method : String
  referral_source : String
  referral_name : String
  interests : List String
deriving DecidableEq

def pt_intake_details_of (l : PtIntakeLookup) : PtIntakeDetails :=
  { birthday := birthday_of l.birthday
  , home_address := labeled_value_of l.home_address
  , cell_phone := labeled_value_of l.cell_phone
  , phone_carrier := labeled_value_of l.phone_carrier
  , occupation := labeled_value_of l.occupation
  , best_contact_method := best_contact_method_of l.contact
  , referral_source := referral_source_of l.referral
  , referral_name := labeled_value_of l.referral_name
  , interests := interests_of l.interests }

/-- The dict returned by `getAppointmentDetails`: an `Option` field models
key presence (`none` = the source never assigned the key).  The
`pt_intake_form` value is itself optional: `some none` is the empty dict
assigned when the modal interaction raised (app.py lines 955-957). -/
structure AppointmentDetails where
  phone_number : Option String := none
  booked_by : Option String := none
  booked_date : Option String := none
  provider_name : Option String := none
  hasCharting : Option Bool := none
  hasCompletedPTIntakeForm : Option Bool := none
  pt_intake_form : Option (Option PtIntakeDetails) := none
deriving DecidableEq

/-- Booked-by / booked-date pair from the actor spans
(app.py lines 538-583): the first span whose lowercased text contains
`"booked"` is split on the literal (case-sensitive) `"booked"`; the part
before is `booked_by`, the part after (with a leading `·` removed) is
`booked_date` — assigned only when the split actually produced a second
part.  When no span qualifies, or when the computed `booked_by` is the
literal `'N/A'`, both keys are set to `'N/A'` (lines 575-578). -/
def booked_fields_of (spans : List String) : Option String × Option String :=
  match spans.find? (fun s => pyIn "booked" (pyLower s)) with
  | none => (some "N/A", some "N/A")
  | some span_text =>
    let parts := pySplitOn span_text "booked"
    let booked_by := pyStrip (parts.headD "")
    let booked_date : Option String :=
      if 1 < parts.length then
        let after_booked := pyStrip (parts.getD 1 "")
        some (if pyStartsWith after_booked "·" then pyStrip (pyDrop after_booked 1)
              else after_booked)
      else none
    if booked_by = "N/A" then (some "N/A", some "N/A")
    else (some booked_by, booked_date)

/-- DOM oracle for the sales-order page visited by `getAppointmentDetails`:
the order rows' cell texts, then the lookups performed after the matching row
is clicked.  `pt_form = none` models the modal interaction raising
(app.py lines 955-957). -/
structure OrderPage where
  rows : List (List String) := []
  phone : PhoneLookup := {}
  view_button : Bool := false
  actor_spans : List String := []
  services : ServicesLookup := {}
  charts : SectionLookup := {}
  forms : SectionLookup := {}
  pt_form : Option PtIntakeLookup := none

/-- The date-cell match (app.py lines 451-479): first row with at least two
cells whose second cell's stripped text equals the converted date. -/
def order_row_found (pg : OrderPage) (formatted_date : String) : Bool :=
  pg.rows.any (fun cells =>
    2 ≤ cells.length && pyStrip (cells.getD 1 "") == formatted_date)

/-- The `MM/DD/YYYY → YYYY-MM-DD` conversion at the top of
`getAppointmentDetails` (app.py lines 416-422); on parse failure the
original string is kept. -/
def formatted_order_date (appointment_date : String) : String :=
  match parse_mdY appointment_date with
  | some (m, d, y) => fmt_Ymd y m d
  | none => appointment_date

/-- `getAppointmentDetails` (app.py lines 400-973).  `client_name` only
shapes the navigation URL; the result is `none` when no order row matches
the date (lines 478-480).  When the View Appointment button is absent, only
the phone key is in the dict (lines 963-964). -/
def getAppointmentDetails (pg : OrderPage) (client_name : String)
    (appointment_date : String) : Option AppointmentDetails :=
  let _ := client_name
  let formatted_date := formatted_order_date appointment_date
  if ¬ order_row_found pg formatted_date then none
  else
    let phone_number := phone_number_of pg.phone
    if ¬ pg.view_button then
      some { phone_number := some phone_number }
    else
      let booked := booked_fields_of pg.actor_spans
      let hasCharting := section_has_item pg.charts ["Completed"]
      let has_completed_pt_intake :=
        section_has_item pg.forms ["New PT Intake Form", "Completed"]
      let pt_intake_form : Option (Option PtIntakeDetails) :=
        if ¬ has_completed_pt_intake then none
        else
          match pg.pt_form with
          | none => some none
          | some l => some (some (pt_intake_details_of l))
      some { phone_number := some phone_number
           , booked_by := booked.1
           , booked_date := booked.2
           , provider_name := some (provider_name_of pg.services)
           , hasCharting := some hasCharting
           , hasCompletedPTIntakeForm := some has_completed_pt_intake
           , pt_intake_form := pt_intake_form }

/-! ## Concrete fixtures used by witnesses and counterexamples -/

/-- An environment with every configuration value present. -/
def env_full : Env :=
  { blvd_email := some "user@example.com"
  , blvd_password := some "hunter2"
  , google_credentials_b64 := some "eyJ0eXBlIjogInNlcnZpY2VfYWNjb3VudCJ9"
  , spreadsheet_id := some "sheet-id-1" }

/-- Login credentials present, Google-Sheets configuration absent. -/
def env_partial : Env :=
  { blvd_email := some "user@example.com"
  , blvd_password := some "hunter2" }

/-- A raw API response with a single new-client event. -/
def raw_new_client : Value :=
  Value.list [Value.dict [("is_new_client", Value.bool true)]]

/-- A cleaned record with placeholder content. -/
def record_example : CleanedRecord :=
  { number := 1, new_client_daily_count := "", appointment_date := "10/11/2025"
  , next_appointment_date := "N/A", client_name := "Jane Doe"
  , phone_number := "N/A", service_name := "Consult", price := 0
  , membership := "N/A", visit := 1, booked_date := "", front_desk := "N/A"
  , provider_name := "N/A", date_treatment_plan_set := "", photos := "No"
  , charting := "No", occupation := "", referral_source := "N/A"
  , referral_source_2 := "N/A", referral_name := "N/A"
  , form_compliance := "Not Completed", interest_1 := "", interest_2 := ""
  , interest_3 := "", interest_4 := "", interest_5 := "", interest_6 := ""
  , interest_7 := "", interest_8 := "", interest_9 := "", interest_10 := "" }

/-- A membership page whose gallery date span is present but does not parse
as `%B %d, %Y`. -/
def membership_page_bad_date : MembershipPage :=
  { gallery_tab := true
  , gallery_heading := true
  , gallery_date_span := some (some "Bad Date") }

/-! ## C1 — monotonically increasing `number` across runs -/

/-- C1 counterexample: when the last-row lookup fails (sheet API exception,
absent worksheet, missing credentials), `get_last_row_number_from_sheets`
returns `0` and the run starts numbering at `1`, which is NOT strictly
greater than a `number` value (here `5`) already present in the sheet.  The
claim's "including when the last-row lookup fails" case is therefore
false. -/
theorem C1_start_number_counterexample :
    5 ∈ sheetNumbers ["Number", "5"] ∧
      ¬ (5 < run_start_number env_full SheetsLookup.failure) := by
  decide

/-- C1 amended: when the lookup succeeds — credentials set, worksheet found,
more than a header row, a last cell that parses as an integer `m` — and
every `number` in the sheet is at most the last value `m` (which is the
situation produced by previous runs appending increasing numbers), the next
run's starting value `m + 1` is strictly greater than every `number` already
present; when the lookup fails the starting value is `1`. -/
theorem C1_start_number_monotone (env : Env) (all_values : List String)
    (m : Int)
    (hc : env_set env.google_credentials_b64 = true)
    (hs : env_set env.spreadsheet_id = true)
    (hlen : 1 < all_values.length)
    (hlast : strToInt? (all_values.getLastD "") = some m)
    (hmax : ∀ n ∈ sheetNumbers all_values, n ≤ m) :
    (∀ n ∈ sheetNumbers all_values,
      n < run_start_number env (SheetsLookup.column all_values)) ∧
      run_start_number env SheetsLookup.failure = 1 := by
  constructor
  · intro n hn
    have hle := hmax n hn
    unfold run_start_number get_last_row_number_from_sheets
    rw [if_neg (by simp [hc, hs])]
    show n <
      (if all_values.length ≤ 1 then (0 : Int)
       else
         match strToInt? (all_values.getLastD "") with
         | some last_number => last_number
         | none => 0) + 1
    rw [if_neg (by omega)]
    rw [hlast]
    show n < m + 1
    omega
  · unfold run_start_number get_last_row_number_from_sheets
    simp [hc, hs]

/-- C1 witness: a sheet holding numbers 1 and 2 with last value 2 gives a
starting value strictly above both. -/
theorem C1_start_number_monotone_witness :
    (∀ n ∈ sheetNumbers ["Number", "1", "2"],
      n < run_start_number env_full (SheetsLookup.column ["Number", "1", "2"])) ∧
      run_start_number env_full SheetsLookup.failure = 1 :=
  C1_start_number_monotone env_full ["Number", "1", "2"] 2
    (by decide) (by decide) (by decide) (by decide) (by decide)

/-! ## C2 — required environment values abort the run -/

/-- C2 counterexample: with login credentials present but the Google
credential blob and spreadsheet id absent, `main` does not abort — the whole
pipeline runs, including the JSON output stage, and only the sheets append
fails.  This refutes "absence of any required value aborts the run with no
partial execution". -/
theorem C2_env_abort_counterexample :
    env_set env_partial.google_credentials_b64 = false ∧
      main_stages env_partial true (some raw_new_client) [{}] =
        [Stage.login, Stage.fetchEvents, Stage.filterEvents,
         Stage.extractFields, Stage.lastRowLookup, Stage.cleanStage,
         Stage.saveJson, Stage.sheetsAppend] := by
  constructor
  · decide
  · rfl

/-- C2 amended: only the login email and password are checked up front —
their absence aborts the run before any stage; the Google-Sheets
configuration is never checked by `main`, so its absence leaves the stage
trace unchanged (the run still logs in, fetches, filters, extracts, cleans
and writes the JSON output), while the last-row lookup silently returns `0`
and the sheets append returns failure. -/
theorem C2_env_abort_amended :
    (∀ (env : Env) (lo : Bool) (ed : Option Value)
        (ex : List ExtractedRecord),
      (env_set env.blvd_email && env_set env.blvd_password) = false →
        main_stages env lo ed ex = []) ∧
    (∀ (env1 env2 : Env) (lo : Bool) (ed : Option Value)
        (ex : List ExtractedRecord),
      env1.blvd_email = env2.blvd_email →
        env1.blvd_password = env2.blvd_password →
        main_stages env1 lo ed ex = main_stages env2 lo ed ex) ∧
    (∀ (env : Env) (lk : SheetsLookup),
      (env_set env.google_credentials_b64 && env_set env.spreadsheet_id)
          = false →
        get_last_row_number_from_sheets env lk = 0 ∧
          ∀ (api_ok : Bool) (cd : List CleanedRecord),
            append_to_google_sheets_result env api_ok cd = false) ∧
    (∀ (env : Env) (raw : Value) (ex : List ExtractedRecord),
      (env_set env.blvd_email && env_set env.blvd_password) = true →
        truthy raw = true →
        (filter_new_clients_from_raw raw).isEmpty = false →
        ex.isEmpty = false →
        main_stages env true (some raw) ex =
          [Stage.login, Stage.fetchEvents, Stage.filterEvents,
           Stage.extractFields, Stage.lastRowLookup, Stage.cleanStage,
           Stage.saveJson, Stage.sheetsAppend]) := by
  refine ⟨?_, ?_, ?_, ?_⟩
  · intro env lo ed ex h
    simp [main_stages, h]
  · intro env1 env2 lo ed ex he hp
    simp only [main_stages, he, hp]
  · intro env lk h
    refine ⟨?_, ?_⟩
    · simp [get_last_row_number_from_sheets, h]
    · intro api_ok cd
      simp [append_to_google_sheets_result, h]
  · intro env raw ex he ht hf hx
    simp [main_stages, he, ht, hf, hx]

/-- C2 witness: the amended behavior at concrete inputs — an environment
with no login email runs nothing; the partial environment runs the full
trace with a zero last-row and a failed append. -/
theorem C2_env_abort_amended_witness :
    main_stages { blvd_email := none } true (some raw_new_client) [{}] = [] ∧
      get_last_row_number_from_sheets env_partial SheetsLookup.failure = 0 ∧
      append_to_google_sheets_result env_partial true [record_example] = false ∧
      main_stages env_partial true (some raw_new_client) [{}] =
        [Stage.login, Stage.fetchEvents, Stage.filterEvents,
         Stage.extractFields, Stage.lastRowLookup, Stage.cleanStage,
         Stage.saveJson, Stage.sheetsAppend] := by
  refine ⟨?_, ?_, ?_, ?_⟩
  · exact C2_env_abort_amended.1 { blvd_email := none } true
      (some raw_new_client) [{}] (by decide)
  · exact (C2_env_abort_amended.2.2.1 env_partial SheetsLookup.failure
      (by decide)).1
  · exact (C2_env_abort_amended.2.2.1 env_partial SheetsLookup.failure
      (by decide)).2 true [record_example]
  · exact C2_env_abort_amended.2.2.2 env_partial raw_new_client [{}]
      (by decide) (by decide) (by rfl) (by decide)

/-! ## C3 — the new-client filter is a pure, order-preserving filter -/

/-- The loop's per-event flag agrees with the spec's "direct OR nested,
first truthy wins" predicate. -/
theorem event_is_new_client_eq_spec (d : List (String × Value)) :
    event_is_new_client d = new_client_spec d := by
  unfold event_is_new_client new_client_spec
  by_cases h : truthy (dictGet d "is_new_client" (Value.bool false))
  · simp [h]
  · have hfalse : truthy (dictGet d "is_new_client" (Value.bool false)) = false := by
      simpa using h
    dsimp only
    rw [if_pos h, hfalse]
    simp only [Bool.false_or]
    cases hcl : dictGet d "client" (Value.dict []) <;> simp [hfalse]

/-- The accumulator loop computes a `List.filter` over the events. -/
theorem filter_loop_eq_filter (evs : List Value) :
    ∀ acc : List Value, evs.all isDictV = true →
      filter_loop acc evs =
        some (acc ++ evs.filter (fun ev =>
          match ev with
          | Value.dict d => event_is_new_client d
          | _ => false)) := by
  induction evs with
  | nil => intro acc _; simp [filter_loop]
  | cons ev rest ih =>
    intro acc hall
    simp only [List.all_cons, Bool.and_eq_true] at hall
    obtain ⟨hd, hrest⟩ := hall
    cases ev with
    | dict d =>
      rw [filter_loop, ih _ hrest]
      by_cases hflag : event_is_new_client d
      · simp [hflag, List.filter_cons]
      · simp [hflag, List.filter_cons]
    | null => simp [isDictV] at hd
    | bool b => simp [isDictV] at hd
    | num n => simp [isDictV] at hd
    | str s => simp [isDictV] at hd
    | list xs => simp [isDictV] at hd

/-- C3: on a well-formed input — a bare list, or a dict whose `events` /
`data` key holds the list, with every event an object — the filter returns
exactly the events whose direct or nested `is_new_client` is truthy (first
truthy wins), in input order; the events are the original, unmodified
objects since `List.filter` returns the input elements themselves. -/
theorem C3_filter_new_clients (raw : Value) (evs : List Value)
    (hev : eventsOf raw = Value.list evs)
    (hd : evs.all isDictV = true) :
    filter_new_clients_from_raw raw =
      evs.filter (fun ev =>
        match ev with
        | Value.dict d => new_client_spec d
        | _ => false) := by
  unfold filter_new_clients_from_raw
  rw [hev]
  cases evs with
  | nil => simp [truthy, List.filter]
  | cons ev rest =>
    rw [if_neg (by simp [truthy])]
    show (match filter_loop [] (ev :: rest) with
          | some res => res
          | none => []) = _
    rw [filter_loop_eq_filter _ _ hd]
    simp only [List.nil_append]
    congr 1
    funext x
    cases x <;> simp [event_is_new_client_eq_spec]

/-- Four events: a direct flag, a falsy direct flag, a nested flag, and no
flag at all. -/
def events_example : List Value :=
  [Value.dict [("id", Value.num 1), ("is_new_client", Value.bool true)],
   Value.dict [("id", Value.num 2), ("is_new_client", Value.bool false)],
   Value.dict [("id", Value.num 3),
     ("client", Value.dict [("is_new_client", Value.bool true)])],
   Value.dict [("id", Value.num 4)]]

/-- C3 witness: the mixed event list above, wrapped under an `events` key,
keeps exactly the two truthy ones in order. -/
theorem C3_filter_new_clients_witness :
    filter_new_clients_from_raw
        (Value.dict [("events", Value.list events_example)]) =
      [Value.dict [("id", Value.num 1), ("is_new_client", Value.bool true)],
       Value.dict [("id", Value.num 3),
         ("client", Value.dict [("is_new_client", Value.bool true)])]] :=
  C3_filter_new_clients (Value.dict [("events", Value.list events_example)])
    events_example (by rfl) (by rfl)

/-! ## C4 — sequential numbering from the supplied start -/

/-- The loop emits one cleaned row per input record. -/
theorem clean_data_loop_length (current_year : Nat)
    (ext : List ExtractedRecord) :
    ∀ idx : Int,
      (clean_data_loop current_year idx ext).length = ext.length := by
  induction ext with
  | nil => intro idx; simp [clean_data_loop]
  | cons r rest ih => intro idx; simp [clean_data_loop, ih (idx + 1)]

/-- The loop's `number` column is the arithmetic ramp from its start
index. -/
theorem clean_data_loop_numbers (current_year : Nat)
    (ext : List ExtractedRecord) :
    ∀ idx : Int,
      (clean_data_loop current_year idx ext).map (fun r => r.number) =
        (List.range ext.length).map (fun i : Nat => idx + (i : Int)) := by
  induction ext with
  | nil => intro idx; simp [clean_data_loop]
  | cons r rest ih =>
    intro idx
    rw [clean_data_loop, List.map_cons, List.length_cons,
      List.range_succ_eq_map, List.map_cons, List.map_map, ih (idx + 1)]
    congr 1
    · show (clean_record current_year idx r).number = idx + ((0 : Nat) : Int)
      simp [clean_record]
    · have hfun : ((fun i : Nat => idx + (i : Int)) ∘ Nat.succ) =
          (fun i : Nat => idx + 1 + (i : Int)) := by
        funext i
        simp only [Function.comp_apply, Nat.succ_eq_add_one]
        push_cast
        ring
      rw [hfun]

/-- C4: `clean_data` over `k` records starting at `N` yields `k` rows whose
`number` fields are exactly `N, N + 1, …, N + k - 1` in input order. -/
theorem C4_clean_data_numbers (current_year : Nat)
    (extracted_data : List ExtractedRecord) (start_number : Int) :
    (clean_data current_year extracted_data start_number).length =
        extracted_data.length ∧
      (clean_data current_year extracted_data start_number).map
          (fun r => r.number) =
        (List.range extracted_data.length).map
          (fun i : Nat => start_number + (i : Int)) := by
  exact ⟨clean_data_loop_length current_year extracted_data start_number,
    clean_data_loop_numbers current_year extracted_data start_number⟩

/-! ## C6 — `hasPhotos` derivation -/

/-- C6: the derived `hasPhotos` flag is true exactly when the two date
strings are equal and neither is the `'N/A'` sentinel; in particular two
sentinel values, although string-equal, give `false`. -/
theorem C6_hasPhotos (appointment_date gallery_date : String) :
    compute_hasPhotos appointment_date gallery_date = true ↔
      (appointment_date = gallery_date ∧ appointment_date ≠ "N/A" ∧
        gallery_date ≠ "N/A") := by
  unfold compute_hasPhotos
  by_cases ha : appointment_date = "N/A"
  · simp [ha]
  · by_cases hg : gallery_date = "N/A"
    · simp [ha, hg]
    · simp [ha, hg]

/-! ## C7 — the two date reformatters on their canonical inputs -/

/-- C7: the extraction side maps the ISO start string to `MM/DD/YYYY`, and
the cleaning side maps the booked-date fragment to `10/06/<current year>` —
for every possible current year, showing the source text's year is never
consulted. -/
theorem C7_date_reformats (current_year : Nat) :
    appointment_date_of_start "2025-10-11T10:00:00-05:00" = "10/11/2025" ∧
      booked_date_formatted_of "Mon Oct 6 @ 3:48pm CDT" current_year =
        "10/06/" ++ toString current_year := by
  exact ⟨by decide, rfl⟩

/-! ## C9 — unknown month tokens silently become "01" -/

/-- C9: in both `clean_data` date paths, when the regex matches but the
month token is not a key of the month map (the booked-date map has only
three-letter abbreviations, and even the full map misses tokens such as
"Sept"), the formatted date silently uses month `01` with the matched day
and the current year, and no error value is produced. -/
theorem C9_unknown_month_token (current_year : Nat) (s1 s2 : String)
    (m1 d1 m2 d2 : List Char) (svc : Option String) :
    (findMonthDay s1.toList = some (m1, d1) →
      month_map_abbrev.lookup (String.mk m1) = none →
      booked_date_formatted_of s1 current_year =
        "01/" ++ zfill2 (String.mk d1) ++ "/" ++ toString current_year) ∧
    (findMonthDay s2.toList = some (m2, d2) →
      month_map_full.lookup (String.mk m2) = none →
      next_appointment_date_of [{ service := svc, date_time := some s2 }]
          current_year =
        "01/" ++ zfill2 (String.mk d2) ++ "/" ++ toString current_year) := by
  have hempty : findMonthDay "".toList = none := by decide
  have hna1 : findMonthDay "N/A".toList = none := by decide
  constructor
  · intro hf hl
    have hne : s1 ≠ "" := by
      intro he; rw [he, hempty] at hf; exact Option.noConfusion hf
    have hna : s1 ≠ "N/A" := by
      intro he; rw [he, hna1] at hf; exact Option.noConfusion hf
    unfold booked_date_formatted_of
    rw [if_pos (by simp [hne, hna]), hf]
    show monthMapGet month_map_abbrev (String.mk m1) ++ "/" ++
        zfill2 (String.mk d1) ++ "/" ++ toString current_year = _
    unfold monthMapGet
    rw [hl]
    rfl
  · intro hf hl
    have hne : s2 ≠ "" := by
      intro he; rw [he, hempty] at hf; exact Option.noConfusion hf
    have hna : s2 ≠ "N/A" := by
      intro he; rw [he, hna1] at hf; exact Option.noConfusion hf
    unfold next_appointment_date_of
    dsimp only [Option.getD_some]
    rw [if_pos (by simp [hne, hna]), hf]
    show monthMapGet month_map_full (String.mk m2) ++ "/" ++
        zfill2 (String.mk d2) ++ "/" ++ toString current_year = _
    unfold monthMapGet
    rw [hl]
    rfl

/-- C9 witness: "October" is absent from the booked-date abbreviation map,
and "Sept" is absent from the full map; both silently format with month
`01`. -/
theorem C9_unknown_month_token_witness :
    booked_date_formatted_of "Sat October 11 @ 2pm" 2025 = "01/11/2025" ∧
      next_appointment_date_of
          [{ service := none, date_time := some "Mon Sept 8 @ 2:00pm" }]
          2025 = "01/08/2025" :=
  ⟨(C9_unknown_month_token 2025 "Sat October 11 @ 2pm" "" "October".toList
      "11".toList [] [] none).1 (by decide) (by decide),
   (C9_unknown_month_token 2025 "" "Mon Sept 8 @ 2:00pm" [] []
      "Sept".toList "8".toList none).2 (by decide) (by decide)⟩

/-! ## C10 — the header naming maps are mutually inverse on cleaned keys -/

/-- Characters allowed in a cleaned-record field name: lowercase ASCII
letters, digits, underscore. -/
def key_chars : List Char :=
  ['a', 'b', 'c', 'd', 'e', 'f', 'g', 'h', 'i', 'j', 'k', 'l', 'm',
   'n', 'o', 'p', 'q', 'r', 's', 't', 'u', 'v', 'w', 'x', 'y', 'z',
   '0', '1', '2', '3', '4', '5', '6', '7', '8', '9', '_']

/-- One step of `str.title`, exposing the next "previous character was
cased" state. -/
theorem pyTitleAux_cons (b : Bool) (x : Char) (xs : List Char) :
    pyTitleAux b (x :: xs) =
      (if isLetterC x then (if b then pyLowerChar x else pyUpperChar x)
       else x) :: pyTitleAux (isLetterC x) xs := by
  by_cases h : isLetterC x <;> simp [pyTitleAux, h]

/-- Per-character roundtrip: for every allowed key character, pushing it
through underscore→space, the title-case step (in either state), lowercase,
and space→underscore recovers it. -/
theorem key_char_roundtrip :
    ∀ c ∈ key_chars,
      ((fun x => if x = ' ' then '_' else x)
        (pyLowerChar
          (if isLetterC (if c = '_' then ' ' else c) then
            pyUpperChar (if c = '_' then ' ' else c)
           else (if c = '_' then ' ' else c))) = c) ∧
      ((fun x => if x = ' ' then '_' else x)
        (pyLowerChar
          (if isLetterC (if c = '_' then ' ' else c) then
            pyLowerChar (if c = '_' then ' ' else c)
           else (if c = '_' then ' ' else c))) = c) := by
  decide

/-- List-level roundtrip, generalized over the title-case state. -/
theorem title_lower_roundtrip_aux (cs : List Char) :
    ∀ b : Bool, (∀ c ∈ cs, c ∈ key_chars) →
      ((pyTitleAux b (cs.map (fun c => if c = '_' then ' ' else c))).map
          pyLowerChar).map (fun c => if c = ' ' then '_' else c) = cs := by
  induction cs with
  | nil => intro b _; rfl
  | cons c rest ih =>
    intro b h
    have hc := h c (List.mem_cons_self c rest)
    have hrest : ∀ x ∈ rest, x ∈ key_chars :=
      fun x hx => h x (List.mem_cons_of_mem _ hx)
    rw [List.map_cons, pyTitleAux_cons, List.map_cons, List.map_cons,
      ih _ hrest]
    congr 1
    dsimp only
    cases b
    · exact (key_char_roundtrip c hc).1
    · exact (key_char_roundtrip c hc).2

/-- C10: for every field name made of lowercase letters, digits and
underscores, the fetch-side transform undoes the append-side transform, so a
record appended and then fetched keeps its field names. -/
theorem C10_header_roundtrip (key : String)
    (h : ∀ c ∈ key.toList, c ∈ key_chars) :
    key_of_header (header_of_key key) = key := by
  show String.mk
      (((pyTitleAux false
          (key.toList.map (fun c => if c = '_' then ' ' else c))).map
        pyLowerChar).map (fun c => if c = ' ' then '_' else c)) = key
  rw [title_lower_roundtrip_aux key.toList false h]
  rfl

/-- C10 witness: a representative cleaned key with letters, digits and
underscores survives the roundtrip. -/
theorem C10_header_roundtrip_witness :
    key_of_header (header_of_key "referral_source_2") = "referral_source_2" :=
  C10_header_roundtrip "referral_source_2" (by decide)

/-! ## C8 — spreadsheet append as a frame property -/

/-- C8 counterexample: appending to a sheet whose header row does not match
the Title-Cased record keys does NOT leave the header unchanged — the source
overwrites row 1 with the computed headers (app.py lines 1602-1608). -/
theorem C8_append_counterexample :
    append_to_google_sheets [["Foo"]] [record_example] ≠
      ["Foo"] :: ([] ++ [row_of_record record_example]) := by
  decide

/-- C8 amended: for an existing monthly sheet whose header row matches the
Title-Cased record keys and which holds `N` data rows, appending `M` cleaned
records yields the header, the original `N` rows unchanged and in place, and
the `M` new rows appended after them in input order (hence `N + M` data
rows).  A mismatched header is overwritten first, as the counterexample
shows. -/
theorem C8_append_preserves_rows (dataRows : List (List String))
    (cleaned_data : List CleanedRecord) :
    append_to_google_sheets (computed_headers :: dataRows) cleaned_data =
      computed_headers :: (dataRows ++ cleaned_data.map row_of_record) := by
  cases cleaned_data with
  | nil => simp [append_to_google_sheets]
  | cons r rest =>
    dsimp only [append_to_google_sheets, List.headD_cons, List.isEmpty_cons]
    rw [if_neg (by decide)]
    rw [if_neg (by simp)]
    simp [List.cons_append]

/-! ## C5 — per-field fault tolerance of the enrichment pass -/

/-- C5 counterexample: in `getMembershipInfo`, when the gallery date span is
present but its text fails to parse as `%B %d, %Y`, the failing extraction
step does NOT yield the `'N/A'` sentinel — the unparsed text is stored
verbatim (app.py line 1154). -/
theorem C5_sentinel_counterexample :
    parse_full_month_date "Bad Date" = none ∧
      (getMembershipInfo membership_page_bad_date).gallery_first_date =
        "Bad Date" ∧
      "Bad Date" ≠ "N/A" := by
  refine ⟨by decide, by decide, by decide⟩

/-- An order page whose rows contain a match for `10/11/2025` and nothing
else: the View Appointment button and every field element are absent. -/
def order_page_example : OrderPage :=
  { rows := [["Jane Doe", " 2025-10-11 "]] }

/-- C5 amended: each per-field lookup that runs yields its sentinel when its
element chain is absent, the call never raises (it always returns), and
sibling fields are independent — with two deviations from the claim:
a present-but-unparseable gallery date is stored verbatim (stripped), and
the fields guarded by the View Appointment button are omitted from the
returned dictionary (no keys at all) when the button is absent, as is
`pt_intake_form` when the intake form is not completed. -/
theorem C5_field_fault_tolerance :
    (∀ pg : MembershipPage, pg.memberships_tab = false →
      (getMembershipInfo pg).status = "N/A" ∧
        (getMembershipInfo pg).start_date = "N/A" ∧
        (getMembershipInfo pg).price = "N/A") ∧
    (∀ pg : MembershipPage, pg.status_label = false →
      (getMembershipInfo pg).status = "N/A") ∧
    (∀ pg : MembershipPage, pg.scheduled_heading = false →
      (getMembershipInfo pg).scheduled_appointments = []) ∧
    (∀ pg : MembershipPage, pg.gallery_tab = false →
      (getMembershipInfo pg).gallery_first_date = "N/A") ∧
    (∀ (pg : MembershipPage) (tb oc sl sp : Bool)
        (sv : Option (Option String)),
      (getMembershipInfo
          { pg with
              memberships_tab := tb
              overview_card := oc
              status_label := sl
              status_parent := sp
              status_value := sv }).gallery_first_date =
        (getMembershipInfo pg).gallery_first_date ∧
      (getMembershipInfo
          { pg with
              gallery_tab := tb
              gallery_heading := oc
              gallery_date_span := sv }).status =
        (getMembershipInfo pg).status) ∧
    (∀ (pg : MembershipPage) (t : String), pg.gallery_tab = true →
      pg.gallery_heading = true → pg.gallery_date_span = some (some t) →
      t ≠ "" → parse_full_month_date (pyStrip t) = none →
      (getMembershipInfo pg).gallery_first_date = pyStrip t) ∧
    (∀ (pg : OrderPage) (nm ad : String),
      (getAppointmentDetails pg nm ad).isSome =
        order_row_found pg (formatted_order_date ad)) ∧
    (∀ (pg : OrderPage) (nm ad : String),
      order_row_found pg (formatted_order_date ad) = true →
      pg.phone.svg_present = false →
      (getAppointmentDetails pg nm ad).map (fun d => d.phone_number) =
        some (some "N/A")) ∧
    (∀ (pg : OrderPage) (nm ad : String),
      order_row_found pg (formatted_order_date ad) = true →
      pg.view_button = false →
      getAppointmentDetails pg nm ad =
        some { phone_number := some (phone_number_of pg.phone) }) ∧
    (∀ (pg : OrderPage) (nm ad : String),
      order_row_found pg (formatted_order_date ad) = true →
      pg.view_button = true → pg.charts.heading = false →
      (getAppointmentDetails pg nm ad).map (fun d => d.hasCharting) =
        some (some false)) ∧
    (∀ l : PtIntakeLookup, l.occupation.label_present = false →
      (pt_intake_details_of l).occupation = "N/A" ∧
        (pt_intake_details_of l).birthday = birthday_of l.birthday) ∧
    (∀ (rows : List (List String)) (ph1 ph2 : PhoneLookup) (vb : Bool)
        (sp : List String) (sv : ServicesLookup) (ch fo : SectionLookup)
        (pt : Option PtIntakeLookup) (nm ad : String),
      (getAppointmentDetails (OrderPage.mk rows ph1 vb sp sv ch fo pt)
          nm ad).map (fun d => d.hasCharting) =
        (getAppointmentDetails (OrderPage.mk rows ph2 vb sp sv ch fo pt)
          nm ad).map (fun d => d.hasCharting)) := by
  refine ⟨?_, ?_, ?_, ?_, ?_, ?_, ?_, ?_, ?_, ?_, ?_, ?_⟩
  · intro pg h
    refine ⟨?_, ?_, ?_⟩ <;> simp [getMembershipInfo, h]
  · intro pg h
    simp [getMembershipInfo, h]
  · intro pg h
    simp [getMembershipInfo, h]
  · intro pg h
    simp [getMembershipInfo, gallery_first_date_of, h]
  · intro pg tb oc sl sp sv
    constructor <;> simp [getMembershipInfo, gallery_first_date_of]
  · intro pg t h1 h2 h3 h4 h5
    simp [getMembershipInfo, gallery_first_date_of, h1, h2, h3, h4, h5]
  · intro pg nm ad
    by_cases h : order_row_found pg (formatted_order_date ad) <;>
      by_cases hv : pg.view_button <;>
        simp [getAppointmentDetails, h, hv]
  · intro pg nm ad h hsvg
    by_cases hv : pg.view_button <;>
      simp [getAppointmentDetails, h, hv, phone_number_of, hsvg]
  · intro pg nm ad h hv
    simp [getAppointmentDetails, h, hv]
  · intro pg nm ad h hv hch
    simp [getAppointmentDetails, h, hv, section_has_item, hch]
  · intro l h
    exact ⟨by simp [pt_intake_details_of, labeled_value_of, h], rfl⟩
  · intro rows ph1 ph2 vb sp sv ch fo pt nm ad
    dsimp only [getAppointmentDetails, order_row_found]
    by_cases h : (rows.any fun cells =>
        2 ≤ cells.length &&
          pyStrip (cells.getD 1 "") == formatted_order_date ad) = true
    · have hnn : ¬¬((rows.any fun cells =>
          2 ≤ cells.length &&
            pyStrip (cells.getD 1 "") == formatted_order_date ad) = true) :=
        fun hc => hc h
      rw [if_neg hnn, if_neg hnn]
      by_cases hv : vb = true <;> simp [hv]
    · rw [if_pos h, if_pos h]

/-- C5 witness: the amended behavior at concrete pages — empty membership
page gives all sentinels, the bad-date page keeps the text verbatim, and an
order page with a matching row but no button yields the phone-only
dictionary with the phone sentinel. -/
theorem C5_field_fault_tolerance_witness :
    (getMembershipInfo {}).status = "N/A" ∧
      (getMembershipInfo {}).scheduled_appointments = [] ∧
      (getMembershipInfo {}).gallery_first_date = "N/A" ∧
      (getMembershipInfo membership_page_bad_date).gallery_first_date =
        pyStrip "Bad Date" ∧
      (getAppointmentDetails order_page_example "Jane Doe" "10/11/2025").isSome
          = order_row_found order_page_example
            (formatted_order_date "10/11/2025") ∧
      getAppointmentDetails order_page_example "Jane Doe" "10/11/2025" =
        some { phone_number := some "N/A" } ∧
      (pt_intake_details_of {}).occupation = "N/A" :=
  ⟨(C5_field_fault_tolerance.1 {} rfl).1,
   C5_field_fault_tolerance.2.2.1 {} rfl,
   C5_field_fault_tolerance.2.2.2.1 {} rfl,
   C5_field_fault_tolerance.2.2.2.2.2.1 membership_page_bad_date "Bad Date"
     rfl rfl rfl (by decide) (by decide),
   C5_field_fault_tolerance.2.2.2.2.2.2.1 order_page_example "Jane Doe"
     "10/11/2025",
   C5_field_fault_tolerance.2.2.2.2.2.2.2.2.1 order_page_example "Jane Doe"
     "10/11/2025" (by decide) rfl,
   (C5_field_fault_tolerance.2.2.2.2.2.2.2.2.2.2.1 {} rfl).1⟩

end Boulevard
